import Mathlib

/-!
Shallow embedding of the dispatcharr-exporter plugin (src/plugin.py):
the shared-cache coordination state, the single-instance election protocol
(delayed_auto_start), the listener lifecycle (MetricsServer.start/stop and
its monitor loop), the action dispatcher (Plugin.run), the WSGI routing
(MetricsServer.wsgi_app) and the label-value escaping used by the metric
collectors.  Cooperating worker processes are modelled by explicit state
passing; the shared cache is a record of the four coordination keys; the
environment (config reads, port probes, exceptions) is passed in as
explicit oracles so that every interleaving the claims quantify over is a
choice of oracle.
-/

namespace DispatcharrExporter

/-- The four coordination keys of the shared cache, each
`prometheus_exporter:<key>`; `none` models an absent key, `some v` a key
holding string value `v` (plugin.py stores only strings here). -/
structure Cache where
  server_running : Option String
  server_host : Option String
  server_port : Option String
  stop_requested : Option String
deriving Repr, DecidableEq

/-- A cache with none of the coordination keys present (fresh deployment). -/
def emptyCache : Cache := ⟨none, none, none, none⟩

/-- The three key writes performed right after a successful bind
(plugin.py lines 1154-1156): `server_running="1"`, `server_host`,
`server_port` (the port is stored as a string via `str(self.port)`). -/
def writeServerFlags (host : String) (port : Nat) (c : Cache) : Cache :=
  { c with server_running := some "1", server_host := some host,
           server_port := some (toString port) }

/-! ## WSGI routing (MetricsServer.wsgi_app, plugin.py lines 972-1089) -/

/-- A WSGI response as the triple the handler produces: the status line
passed to start_response, the Content-Type header, and the body bytes
(modelled as the string that is utf-8 encoded). -/
structure HttpResponse where
  status : String
  contentType : String
  body : String
deriving Repr, DecidableEq

/-- The static status page served at the root path.  The source builds a
styled HTML document from PLUGIN_CONFIG; the routing contract constrains
only the status and content type of this response, so the page markup is
abbreviated to its skeleton here. -/
def indexHtml : String :=
  "<!DOCTYPE html>\n<html>\n<head><title>Dispatcharr Exporter</title></head>\n<body><h1>Dispatcharr Exporter</h1><a href=\"/metrics\">View Metrics</a> <a href=\"/health\">Health Check</a></body>\n</html>"

/-- MetricsServer.wsgi_app.  `collect` is the outcome of
`self.collector.collect_metrics(settings=self.settings)`: `Except.ok t`
when collection returns exposition text `t`, `Except.error e` when it
raises an exception whose message is `e`. -/
def wsgi_app (collect : Except String String) (path : String) : HttpResponse :=
  if path = "/metrics" then
    match collect with
    | Except.ok t => ⟨"200 OK", "text/plain; version=0.0.4; charset=utf-8", t⟩
    | Except.error e =>
        ⟨"500 Internal Server Error", "text/plain", "# Error: " ++ e ++ "\n"⟩
  else if path = "/health" then ⟨"200 OK", "text/plain", "OK\n"⟩
  else if path = "/" then ⟨"200 OK", "text/html; charset=utf-8", indexHtml⟩
  else ⟨"404 Not Found", "text/plain", "Not Found\n"⟩

/-! ## Label-value escaping used by the collectors -/

/-- Python `str.replace` with a single-character pattern: scan the string
left to right and substitute every occurrence of the character `c` by the
replacement `r`.  (Every `.replace` call in the collectors has a
single-character pattern, so this captures its semantics exactly.) -/
def replaceCharList (c : Char) (r : List Char) : List Char → List Char
  | [] => []
  | x :: xs => (if x = c then r else [x]) ++ replaceCharList c r xs

/-- `s.replace(c, r)` for a single-character pattern `c`. -/
def replaceChar (c : Char) (r : String) (s : String) : String :=
  ⟨replaceCharList c r.data s.data⟩

/-- Escaping used for settings labels in collect_metrics (plugin.py line
126): backslash first, then double quote —
`str(field_value).replace(backslash, double backslash).replace(quote, backslash quote)`.
This is the correct Prometheus label escaping. -/
def escapeBackslashThenQuote (s : String) : String :=
  replaceChar '\"' "\\\"" (replaceChar '\\' "\\\\" s)

/-- Escaping used for account names in _collect_m3u_account_metrics
(plugin.py line 201), for channel/stream names in _collect_stream_metrics
(lines 431-433, 509-510) and for client fields in _collect_client_metrics
(lines 838-841): quote FIRST, then backslash —
`name.replace(quote, backslash quote).replace(backslash, double backslash)`. -/
def escapeQuoteThenBackslash (s : String) : String :=
  replaceChar '\\' "\\\\" (replaceChar '\"' "\\\"" s)

/-- Escaping used for profile and account names in _collect_profile_metrics
(plugin.py lines 291-292): only the double quote is replaced; backslashes
are left untouched. -/
def escapeQuoteOnly (s : String) : String := replaceChar '\"' "\\\"" s

/-! ## The single-instance election (delayed_auto_start, plugin.py 1536-1663)

The election attempt of each worker runs entirely under the exclusive
non-blocking file lock: a worker either fails `flock` immediately
(BlockingIOError, contention) or holds the lock for its whole critical
section, and a worker that starts the listener keeps the lock for the rest
of its life.  Non-holders perform no observable action, so every real
interleaving of N workers is equivalent to running the attempts atomically
in lock-acquisition order; `runElection` folds the attempts over the shared
state in that order. -/

/-- The configuration frozen by the winning worker for one election run:
whether auto-start is enabled and the bind address it reads. -/
structure ElectionConfig where
  enabled : Bool
  host : String
  port : Nat
deriving Repr, DecidableEq

/-- Shared state of the election: whether the file lock is held for good by
a started listener (a winner never releases it, plugin.py line 1632), the
shared cache, and whether the configured port is bound. -/
structure ElectionState where
  lockHeld : Bool
  cache : Cache
  portBound : Bool
deriving Repr, DecidableEq

/-- How one worker's election attempt ended. -/
inductive ElectionOutcome where
  /-- `flock(LOCK_EX | LOCK_NB)` raised BlockingIOError (line 1655). -/
  | contention
  /-- Saw `server_running="1"` in the cache, released the lock (1569-1573). -/
  | sawRunningFlag
  /-- The frozen config had auto-start disabled, released the lock (1590-1594). -/
  | disabledExit
  /-- The throwaway probe bind raised OSError, released the lock (1622-1627). -/
  | probeFailed
  /-- Probe succeeded, MetricsServer.start bound the port, wrote the cache
  flags and went RUNNING; the lock is kept (1629-1633). -/
  | started
deriving Repr, DecidableEq

/-- Number of times the attempt tried to bind the configured port: the
throwaway probe (line 1620) counts one, and a successful start also binds
the real listener socket (line 1145). -/
def bindAttempts : ElectionOutcome → Nat
  | ElectionOutcome.probeFailed => 1
  | ElectionOutcome.started => 2
  | _ => 0

/-- One worker's election attempt, run atomically under the file lock,
following delayed_auto_start in source order: flock, running-flag check,
frozen auto-start decision, port probe, MetricsServer.start (which writes
the cache flags) with the lock kept on success. -/
def electionAttempt (cfg : ElectionConfig) (s : ElectionState) :
    ElectionOutcome × ElectionState :=
  if s.lockHeld then (ElectionOutcome.contention, s)
  else if s.cache.server_running = some "1" then (ElectionOutcome.sawRunningFlag, s)
  else if !cfg.enabled then (ElectionOutcome.disabledExit, s)
  else if s.portBound then (ElectionOutcome.probeFailed, s)
  else (ElectionOutcome.started,
        ⟨true, writeServerFlags cfg.host cfg.port s.cache, true⟩)

/-- N workers run their election attempts against the shared state in
lock-acquisition order; returns each worker's outcome and the final state. -/
def runElection (cfg : ElectionConfig) :
    Nat → ElectionState → List ElectionOutcome × ElectionState
  | 0, s => ([], s)
  | n + 1, s =>
      let r := electionAttempt cfg s
      let rest := runElection cfg n r.2
      (r.1 :: rest.1, rest.2)

/-- Initial shared state of a fresh run: lock free, no coordination keys in
the cache, configured port unbound. -/
def cleanInit : ElectionState := ⟨false, emptyCache, false⟩

/-! ## The auto-start retry loop (plugin.py 1596-1653)

The winning worker's loop makes up to `max_retries = 5` attempts; each
attempt sleeps, re-reads the plugin config row, and — only if the row
exists, is enabled and the FROZEN initial auto-start decision was true —
extracts host/port, probes the port and starts the server.  What each
attempt's environment does (raise, or read a config row with given probe
and start results) is an oracle indexed by the attempt number. -/

/-- The settings dict stored on the plugin config row; any key may be
absent (`settings_dict.get(key, default)`). -/
structure SettingsDict where
  auto_start : Option Bool
  port : Option Nat
  host : Option String
deriving Repr, DecidableEq

/-- A read of the PluginConfig row: the host-managed enabled flag and the
settings dict, which may itself be None (plugin.py line 1604). -/
structure PluginConfigRow where
  enabled : Bool
  settings : Option SettingsDict
deriving Repr, DecidableEq

/-- `PLUGIN_CONFIG` defaults relevant to the election (plugin.py 31-33). -/
def defaultPort : Nat := 9192

/-- Default bind host from PLUGIN_CONFIG. -/
def defaultHost : String := "0.0.0.0"

/-- Default of the auto_start option (PLUGIN_CONFIG, plugin.py line 33). -/
def autoStartDefault : Bool := false

/-- `settings_dict = config.settings if config and config.settings else` an
empty dict (plugin.py line 1604/1583). -/
def settingsDictOf (r : PluginConfigRow) : SettingsDict :=
  r.settings.getD ⟨none, none, none⟩

/-- `settings_dict.get('port', PLUGIN_CONFIG["default_port"])` (line 1610). -/
def effPort (r : PluginConfigRow) : Nat :=
  ((settingsDictOf r).port).getD defaultPort

/-- `settings_dict.get('host', PLUGIN_CONFIG["default_host"])` (line 1611). -/
def effHost (r : PluginConfigRow) : String :=
  ((settingsDictOf r).host).getD defaultHost

/-- The frozen initial auto-start decision (plugin.py 1579-1584):
`config and config.enabled and settings_dict.get('auto_start', default)`,
false when the config row is missing. -/
def initialAutoStart (row : Option PluginConfigRow) : Bool :=
  match row with
  | none => false
  | some r => r.enabled && ((settingsDictOf r).auto_start).getD autoStartDefault

/-- What the environment does during one retry-loop attempt. -/
inductive AttemptEnv where
  /-- Some step of the attempt raised an exception (caught at line 1641). -/
  | throws
  /-- The config read returned `row` (None when the row is missing); if the
  guarded branch probes the port, the probe raises OSError iff `portBusy`,
  and `server.start(...)` returns True iff `startOk`. -/
  | reads (row : Option PluginConfigRow) (portBusy : Bool) (startOk : Bool)
deriving Repr, DecidableEq

/-- How the retry loop ended; each terminal case records the attempt index
at which it happened. -/
inductive LoopResult where
  /-- Probe bind raised OSError: lock released, loop exited (1622-1627). -/
  | probeFailed (attempt : Nat) (port : Nat)
  /-- `server.start` succeeded: RUNNING, lock kept (1630-1633). -/
  | started (attempt : Nat) (host : String) (port : Nat)
  /-- `server.start` returned False after a good probe: lock released,
  loop exited (1634-1639). -/
  | startFailed (attempt : Nat)
  /-- An exception on the last attempt: lock released (1644-1648). -/
  | errorExhausted
  /-- All attempts fell through the guard: lock released after the loop
  (1651-1653). -/
  | fellThrough
deriving Repr, DecidableEq

/-- max_retries (plugin.py line 1544). -/
def maxRetries : Nat := 5

/-- The body of `for attempt in range(max_retries)`, with `rem` the number
of loop iterations still to come after the current one (so the current
attempt is the last iff `rem = 0`).  `initial` is the frozen auto-start
decision; note the guard re-reads only `config.enabled`, never the row's
auto_start value (plugin.py line 1609). -/
def autoStartGo (initial : Bool) (env : Nat → AttemptEnv) :
    Nat → Nat → LoopResult
  | _, 0 => LoopResult.fellThrough
  | attempt, rem + 1 =>
      match env attempt with
      | AttemptEnv.throws =>
          if rem = 0 then LoopResult.errorExhausted
          else autoStartGo initial env (attempt + 1) rem
      | AttemptEnv.reads none _ _ => autoStartGo initial env (attempt + 1) rem
      | AttemptEnv.reads (some row) portBusy startOk =>
          if row.enabled && initial then
            if portBusy then LoopResult.probeFailed attempt (effPort row)
            else if startOk then
              LoopResult.started attempt (effHost row) (effPort row)
            else LoopResult.startFailed attempt
          else autoStartGo initial env (attempt + 1) rem

/-- The full retry loop: attempts 0 .. maxRetries-1. -/
def autoStartLoop (initial : Bool) (env : Nat → AttemptEnv) : LoopResult :=
  autoStartGo initial env 0 maxRetries

/-- Outcome of a whole delayed_auto_start run of the lock-winning worker. -/
inductive AutoStartResult where
  /-- flock failed: another worker holds the lock (line 1655). -/
  | lockContention
  /-- `server_running="1"` seen in the cache; lock released (1567-1573). -/
  | peerRunning
  /-- The frozen decision was false; lock released (1589-1594). -/
  | autoStartDisabled
  /-- The loop ran; its result. -/
  | loop (r : LoopResult)
deriving Repr, DecidableEq

/-- delayed_auto_start for one worker: flock, running-flag check, config
freeze (`freezeRead` is the single read at line 1582), then the retry
loop driven by the per-attempt oracle `env`. -/
def delayedAutoStart (lockFree : Bool) (runningFlag : Option String)
    (freezeRead : Option PluginConfigRow) (env : Nat → AttemptEnv) :
    AutoStartResult :=
  if !lockFree then AutoStartResult.lockContention
  else if runningFlag = some "1" then AutoStartResult.peerRunning
  else if !initialAutoStart freezeRead then AutoStartResult.autoStartDisabled
  else AutoStartResult.loop (autoStartLoop (initialAutoStart freezeRead) env)

/-- Whether the run ended with the listener started. -/
def autoStartStarted : AutoStartResult → Bool
  | AutoStartResult.loop (LoopResult.started _ _ _) => true
  | _ => false

/-- Whether the file lock is still held when the run ends (only a started
listener keeps it; every other path releases it or never acquired it). -/
def lockKept : AutoStartResult → Bool
  | AutoStartResult.loop (LoopResult.started _ _ _) => true
  | _ => false

/-- Whether the guarded branch of one retry-loop attempt is skipped so the
loop just proceeds to the next attempt: the attempt raised (and was not the
last), the config row was missing, or the guard
`config and config.enabled and initial_auto_start_enabled` was false. -/
def attemptContinues (initial : Bool) : AttemptEnv → Bool
  | AttemptEnv.throws => true
  | AttemptEnv.reads none _ _ => true
  | AttemptEnv.reads (some row) _ _ => !(row.enabled && initial)

/-- Two config-row reads that agree on everything the election may still
consume — the enabled flag and the effective port and host — but may
differ in the stored auto_start value (the setting the freeze is about). -/
def rowAgreesExceptAutoStart :
    Option PluginConfigRow → Option PluginConfigRow → Bool
  | none, none => true
  | some r1, some r2 =>
      (r1.enabled == r2.enabled) && (effPort r1 == effPort r2)
        && (effHost r1 == effHost r2)
  | _, _ => false

/-- Two per-attempt environments that are identical except possibly in the
auto_start value their config reads return: same exception behaviour,
same probe and start results, rows agreeing except on auto_start. -/
def envAgreesExceptAutoStart : AttemptEnv → AttemptEnv → Bool
  | AttemptEnv.throws, AttemptEnv.throws => true
  | AttemptEnv.reads c1 p1 s1, AttemptEnv.reads c2 p2 s2 =>
      rowAgreesExceptAutoStart c1 c2 && (p1 == p2) && (s1 == s2)
  | _, _ => false

/-! ## Listener bind sequence (MetricsServer.start, plugin.py 1145-1160)

The thread body of run_server after a successful bind executes, in order:
construct the bound WSGIServer; set `self.running = True` (line 1147);
write the three cache keys (1154-1156).  `self.running` and the cache are
both readable by other threads and workers between any two of these steps,
so the observable states form the trace below. -/

/-- A snapshot another observer (is_running, the start() caller, a peer
worker reading the cache) can take of the listener during startup. -/
structure ListenerView where
  running : Bool
  cache : Cache
deriving Repr, DecidableEq

/-- The observable states of run_server's startup on the successful-bind
path, in program order: after the bind but before `running = True`; after
`running = True` but before the cache writes; after the cache writes. -/
def bindSuccessTrace (host : String) (port : Nat) (c0 : Cache) :
    List ListenerView :=
  [⟨false, c0⟩, ⟨true, c0⟩, ⟨true, writeServerFlags host port c0⟩]

/-! ## Monitor loop (plugin.py 1167-1204)

While `self.running`, the monitor reads `prometheus_exporter:stop_requested`
once per iteration and sleeps 1 second between reads; on seeing "1" it sets
`running = False`, stops the server, and then deletes all four coordination
keys.  Ticks are seconds; `flagAt t` is what the read at tick `t` returns. -/

/-- Deletion of all four coordination keys after shutdown (plugin.py
1189-1192): server_running, server_host, server_port, stop_requested. -/
def shutdownCleanup (_c : Cache) : Cache := ⟨none, none, none, none⟩

/-- Result of running the monitor loop for a bounded number of polls. -/
structure MonitorResult where
  /-- The tick at which the stop flag was observed, if it was. -/
  observedAt : Option Nat
  /-- The listener's running flag when the run ends. -/
  running : Bool
  /-- The cache when the run ends. -/
  cache : Cache
deriving Repr, DecidableEq

/-- The monitor loop, polling at ticks `t, t+1, ...` for at most `fuel`
polls: if the read at the current tick returns "1", the listener leaves
RUNNING and the cleanup deletes the coordination keys; otherwise it sleeps
one tick and polls again. -/
def monitorLoop (flagAt : Nat → Option String) :
    Nat → Nat → Cache → MonitorResult
  | 0, _, c => ⟨none, true, c⟩
  | fuel + 1, t, c =>
      if flagAt t = some "1" then ⟨some t, false, shutdownCleanup c⟩
      else monitorLoop flagAt fuel (t + 1) c

/-! ## stop_server action (Plugin.run, plugin.py 1744-1790) -/

/-- A structured action result: its status field and message. -/
structure ActionResult where
  status : String
  message : String
deriving Repr, DecidableEq

/-- Cache mutations the stop_server action itself performs. -/
structure StopEffects where
  /-- It wrote `stop_requested = "1"` (plugin.py line 1761). -/
  setStopRequested : Bool
  /-- It deleted `server_running` itself (only the LOCAL MetricsServer.stop
  path does; the cross-worker path never does). -/
  deletedServerRunning : Bool
deriving Repr, DecidableEq

/-- The cross-worker wait loop (plugin.py 1765-1773): up to 50 polls of
`server_running`, 0.1 s apart; returns the index of the first poll at
which the flag was no longer "1", if any within `fuel` polls from `i`. -/
def stopPoll (flagAt : Nat → Option String) : Nat → Nat → Option Nat
  | 0, _ => none
  | fuel + 1, i =>
      if flagAt i ≠ some "1" then some i
      else stopPoll flagAt fuel (i + 1)

/-- The stop_server action.  `localRunning` is whether this worker has a
running local instance (`_metrics_server and _metrics_server.is_running()`),
`redisAvailable` whether the cache client is reachable, and `flagAt i` what
the i-th poll of `server_running` returns. -/
def stopServerAction (localRunning : Bool) (redisAvailable : Bool)
    (flagAt : Nat → Option String) : ActionResult × StopEffects :=
  if localRunning then
    (⟨"success", "Metrics server stopped successfully"⟩, ⟨false, true⟩)
  else if redisAvailable then
    match stopPoll flagAt 50 0 with
    | some _ =>
        (⟨"success", "Metrics server stopped successfully"⟩, ⟨true, false⟩)
    | none =>
        (⟨"warning",
          "Stop signal sent, but server did not confirm shutdown within 5 seconds"⟩,
         ⟨true, false⟩)
  else
    (⟨"error", "Cannot stop server: No local instance and Redis unavailable"⟩,
     ⟨false, false⟩)

/-! ## Plugin construction guard (plugin.py 36-38 and 1525-1532, 1663) -/

/-- Process-global state relevant to plugin construction: the module-level
`_auto_start_attempted` flag and how many auto-start threads have been
spawned in this process. -/
structure ProcessState where
  autoStartAttempted : Bool
  electionThreadsSpawned : Nat
deriving Repr, DecidableEq

/-- The observable steps of `Plugin.__init__` that touch the guard. -/
inductive InitEvent where
  /-- Reading `_auto_start_attempted` (line 1527). -/
  | checkFlag
  /-- `_auto_start_attempted = True` (line 1532). -/
  | setFlag
  /-- `threading.Thread(target=delayed_auto_start, ...).start()` (1663). -/
  | spawnElectionThread
deriving Repr, DecidableEq

/-- One Plugin construction: if the flag is already set, it returns right
after the check; otherwise it sets the flag first and only then spawns the
election thread.  Returns the events in execution order and the new state. -/
def pluginInit (s : ProcessState) : List InitEvent × ProcessState :=
  if s.autoStartAttempted then ([InitEvent.checkFlag], s)
  else ([InitEvent.checkFlag, InitEvent.setFlag, InitEvent.spawnElectionThread],
        ⟨true, s.electionThreadsSpawned + 1⟩)

/-- `n` successive Plugin constructions in one process. -/
def pluginInitTimes : Nat → ProcessState → ProcessState
  | 0, s => s
  | n + 1, s => pluginInitTimes n (pluginInit s).2

/-- The state of a freshly started process (module load, plugin.py 37-38). -/
def freshProcess : ProcessState := ⟨false, 0⟩

/-! ## MetricsServer.stop (plugin.py 1229-1267) -/

/-- External state MetricsServer.stop can touch: the shared cache and the
auto-start lock file on disk. -/
structure ServerExternalState where
  cache : Cache
  lockFileExists : Bool
deriving Repr, DecidableEq

/-- MetricsServer.stop: returns False immediately when `self.running` is
false (line 1233-1234), touching nothing; otherwise it stops the server,
deletes server_running/server_host/server_port (but not stop_requested)
and removes the lock file, returning True. -/
def metricsServerStop (running : Bool) (ext : ServerExternalState) :
    Bool × ServerExternalState :=
  if !running then (false, ext)
  else (true,
        ⟨{ ext.cache with server_running := none, server_host := none,
                           server_port := none },
         false⟩)

/-! ## Theorems -/

/-- C2 (code bug): the collectors that escape label values with the quote
replacement FIRST and the backslash replacement SECOND
(_collect_m3u_account_metrics line 201, _collect_stream_metrics,
_collect_client_metrics) double the backslash they just inserted: an
account name containing a double quote is emitted with the sequence
backslash-backslash-quote, i.e. an escaped backslash followed by an
UNESCAPED quote, where the correct escaping (used for the settings labels
in collect_metrics line 126) yields backslash-quote.  Moreover
_collect_profile_metrics leaves backslashes entirely unescaped. -/
theorem escape_order_bug :
    escapeQuoteThenBackslash "my\"account" = "my\\\\\"account"
  ∧ escapeBackslashThenQuote "my\"account" = "my\\\"account"
  ∧ escapeQuoteThenBackslash "my\"account"
      ≠ escapeBackslashThenQuote "my\"account"
  ∧ escapeQuoteOnly "a\\b" = "a\\b" := by
  refine ⟨rfl, rfl, ?_, rfl⟩
  decide

/-- C4: routing of MetricsServer.wsgi_app — /metrics answers 200 with the
Prometheus content type and the exposition text, or 500 text/plain with a
single comment line carrying the error message when collection raises;
/health answers 200 text/plain "OK\n"; / answers 200 text/html; every
other path answers 404 text/plain "Not Found\n". -/
theorem wsgi_routing_contract (c : Except String String) (t e path : String)
    (h1 : path ≠ "/metrics") (h2 : path ≠ "/health") (h3 : path ≠ "/") :
    wsgi_app (Except.ok t) "/metrics"
      = ⟨"200 OK", "text/plain; version=0.0.4; charset=utf-8", t⟩
  ∧ wsgi_app (Except.error e) "/metrics"
      = ⟨"500 Internal Server Error", "text/plain", "# Error: " ++ e ++ "\n"⟩
  ∧ (wsgi_app c "/health") = ⟨"200 OK", "text/plain", "OK\n"⟩
  ∧ (wsgi_app c "/").status = "200 OK"
  ∧ (wsgi_app c "/").contentType = "text/html; charset=utf-8"
  ∧ wsgi_app c path = ⟨"404 Not Found", "text/plain", "Not Found\n"⟩ := by
  refine ⟨rfl, rfl, rfl, rfl, rfl, ?_⟩
  simp [wsgi_app, h1, h2, h3]

/-- Witness for C4 at a concrete unknown path. -/
theorem wsgi_routing_contract_witness :
    wsgi_app (Except.ok "m") "/favicon.ico"
      = ⟨"404 Not Found", "text/plain", "Not Found\n"⟩ :=
  (wsgi_routing_contract (Except.ok "m") "m" "boom" "/favicon.ico"
    (by decide) (by decide) (by decide)).2.2.2.2.2

/-- C3 counterexample: on the successful-bind path of MetricsServer.start
there is an observable state (right after `self.running = True`, plugin.py
line 1147, before the cache writes at 1154-1156) in which the listener is
RUNNING but `server_running` is still absent — so RUNNING is NOT observable
only after the cache write succeeds. -/
theorem running_visible_before_cache_write :
    ¬ (∀ v ∈ bindSuccessTrace "0.0.0.0" 9192 emptyCache,
        v.running = true → v.cache.server_running = some "1") := by
  decide

/-- C3 amended: on a successful bind the cache keys host, port and
running="1" are indeed written, but in the opposite order to the claim:
`running = True` is set first, so along the startup trace any state in
which `server_running = "1"` already has `running = true` (the cache write
is observable only after RUNNING is), while RUNNING itself is observable
before the cache write completes. -/
theorem cache_write_after_running (host : String) (port : Nat) (c0 : Cache)
    (h : c0.server_running ≠ some "1") :
    (∀ v ∈ bindSuccessTrace host port c0,
        v.cache.server_running = some "1" → v.running = true)
  ∧ (⟨true, writeServerFlags host port c0⟩ : ListenerView)
      ∈ bindSuccessTrace host port c0
  ∧ (writeServerFlags host port c0).server_running = some "1"
  ∧ (writeServerFlags host port c0).server_host = some host
  ∧ (writeServerFlags host port c0).server_port = some (toString port) := by
  refine ⟨?_, by simp [bindSuccessTrace], rfl, rfl, rfl⟩
  intro v hv
  simp only [bindSuccessTrace, List.mem_cons, List.mem_singleton,
    List.not_mem_nil, or_false] at hv
  rcases hv with h1 | h1 | h1 <;> subst h1
  · intro hr; exact absurd hr h
  · intro _; rfl
  · intro _; rfl

/-- Witness for C3's amended theorem on a fresh cache. -/
theorem cache_write_after_running_witness :
    (⟨true, writeServerFlags "0.0.0.0" 9192 emptyCache⟩ : ListenerView)
      ∈ bindSuccessTrace "0.0.0.0" 9192 emptyCache
  ∧ (writeServerFlags "0.0.0.0" 9192 emptyCache).server_running = some "1" :=
  ⟨(cache_write_after_running "0.0.0.0" 9192 emptyCache (by decide)).2.1,
   (cache_write_after_running "0.0.0.0" 9192 emptyCache (by decide)).2.2.1⟩

/-- Repeated constructions after the flag is set are no-ops on the guard
state (plugin.py 1527-1529). -/
lemma pluginInitTimes_attempted (n : Nat) (s : ProcessState)
    (h : s.autoStartAttempted = true) : pluginInitTimes n s = s := by
  induction n with
  | zero => rfl
  | succ m ih =>
      show pluginInitTimes m (pluginInit s).2 = s
      rw [pluginInit, if_pos h]
      exact ih

/-- C9: the election task is started at most once per process lifetime —
the first Plugin construction emits checkFlag, setFlag, spawn in that order
(the flag is set before the thread is spawned) and leaves the flag true;
after n+1 constructions exactly one election thread has been spawned; and
a construction that observes the flag set spawns nothing. -/
theorem auto_start_at_most_once_per_process (n : Nat) (s : ProcessState)
    (hs : s.autoStartAttempted = true) :
    (pluginInitTimes (n + 1) freshProcess).electionThreadsSpawned = 1
  ∧ (pluginInit freshProcess).1
      = [InitEvent.checkFlag, InitEvent.setFlag, InitEvent.spawnElectionThread]
  ∧ (pluginInit freshProcess).2.autoStartAttempted = true
  ∧ InitEvent.spawnElectionThread ∉ (pluginInit s).1 := by
  refine ⟨?_, rfl, rfl, ?_⟩
  · show (pluginInitTimes n (pluginInit freshProcess).2).electionThreadsSpawned = 1
    rw [pluginInitTimes_attempted n _ rfl]
    rfl
  · have hev : (pluginInit s).1 = [InitEvent.checkFlag] := by
      rw [pluginInit, if_pos hs]
    rw [hev]
    decide

/-- Witness for C9: three constructions in one process spawn one thread. -/
theorem auto_start_at_most_once_per_process_witness :
    (pluginInitTimes 3 freshProcess).electionThreadsSpawned = 1
  ∧ InitEvent.spawnElectionThread ∉ (pluginInit ⟨true, 1⟩).1 :=
  ⟨(auto_start_at_most_once_per_process 2 ⟨true, 1⟩ rfl).1,
   (auto_start_at_most_once_per_process 2 ⟨true, 1⟩ rfl).2.2.2⟩

/-- C10: calling MetricsServer.stop on an instance whose running flag is
false returns False and leaves the cache keys and the lock file untouched. -/
theorem stop_when_not_running_is_noop (ext : ServerExternalState) :
    metricsServerStop false ext = (false, ext) := rfl

/-- Once a worker has started the listener and keeps the file lock, every
later election attempt fails `flock` immediately and changes nothing. -/
lemma runElection_lockHeld (cfg : ElectionConfig) (n : Nat)
    (s : ElectionState) (h : s.lockHeld = true) :
    runElection cfg n s = (List.replicate n ElectionOutcome.contention, s) := by
  induction n with
  | zero => rfl
  | succ m ih =>
      have hstep : electionAttempt cfg s = (ElectionOutcome.contention, s) := by
        rw [electionAttempt, if_pos h]
      show (let r := electionAttempt cfg s
            let rest := runElection cfg m r.2
            (r.1 :: rest.1, rest.2))
          = (List.replicate (m + 1) ElectionOutcome.contention, s)
      rw [hstep]
      simp only [ih, List.replicate_succ]

/-- The first worker to run its attempt on a clean shared state with
auto-start enabled starts the listener, writes the cache flags and keeps
the lock. -/
lemma electionAttempt_clean (cfg : ElectionConfig) (hen : cfg.enabled = true) :
    electionAttempt cfg cleanInit
      = (ElectionOutcome.started,
         ⟨true, writeServerFlags cfg.host cfg.port emptyCache, true⟩) := by
  rw [electionAttempt]
  simp [cleanInit, emptyCache, hen]

/-- C1: for N+1 worker processes racing through the auto-start election on
one lock file and one cache, starting from a clean state with auto-start
enabled, at most one attempt ends started (and the final cache then holds
`server_running = "1"`), and every attempt that did not start observed
lock contention or the running flag and made zero port-bind attempts. -/
theorem at_most_one_listener (cfg : ElectionConfig) (n : Nat)
    (hen : cfg.enabled = true) :
    ((runElection cfg (n + 1) cleanInit).1.count ElectionOutcome.started ≤ 1)
  ∧ (∀ o ∈ (runElection cfg (n + 1) cleanInit).1,
       o ≠ ElectionOutcome.started →
         (o = ElectionOutcome.contention ∨ o = ElectionOutcome.sawRunningFlag)
         ∧ bindAttempts o = 0)
  ∧ (runElection cfg (n + 1) cleanInit).2.cache.server_running = some "1" := by
  have hrun : runElection cfg (n + 1) cleanInit
      = (ElectionOutcome.started :: List.replicate n ElectionOutcome.contention,
         ⟨true, writeServerFlags cfg.host cfg.port emptyCache, true⟩) := by
    show (let r := electionAttempt cfg cleanInit
          let rest := runElection cfg n r.2
          (r.1 :: rest.1, rest.2))
        = _
    rw [electionAttempt_clean cfg hen]
    show (ElectionOutcome.started ::
            (runElection cfg n
              ⟨true, writeServerFlags cfg.host cfg.port emptyCache, true⟩).1,
          (runElection cfg n
              ⟨true, writeServerFlags cfg.host cfg.port emptyCache, true⟩).2) = _
    rw [runElection_lockHeld cfg n
      ⟨true, writeServerFlags cfg.host cfg.port emptyCache, true⟩ rfl]
  rw [hrun]
  refine ⟨?_, ?_, rfl⟩
  · simp [List.count_cons, List.count_replicate]
  · intro o ho hne
    rcases List.mem_cons.mp ho with h1 | h1
    · exact absurd h1 hne
    · have : o = ElectionOutcome.contention := List.eq_of_mem_replicate h1
      subst this
      exact ⟨Or.inl rfl, rfl⟩

/-- Witness for C1: three racing workers, one start, flag published. -/
theorem at_most_one_listener_witness :
    ((runElection ⟨true, "0.0.0.0", 9192⟩ 3 cleanInit).1.count
        ElectionOutcome.started ≤ 1)
  ∧ (runElection ⟨true, "0.0.0.0", 9192⟩ 3 cleanInit).2.cache.server_running
      = some "1" :=
  ⟨(at_most_one_listener ⟨true, "0.0.0.0", 9192⟩ 2 rfl).1,
   (at_most_one_listener ⟨true, "0.0.0.0", 9192⟩ 2 rfl).2.2⟩

/-- Skipping past attempts whose guarded branch is not taken: if every
attempt in `[a, k)` merely continues, the loop from attempt `a` with `rem`
iterations left behaves like the loop from attempt `k` with the remaining
budget (the budget `attempt + rem` is invariant across iterations). -/
lemma autoStartGo_skip (initial : Bool) (env : Nat → AttemptEnv) (k : Nat)
    (hcont : ∀ j, j < k → attemptContinues initial (env j) = true) :
    ∀ rem rem2 a, a + rem = k + rem2 → a ≤ k → 1 ≤ rem2 →
      autoStartGo initial env a rem = autoStartGo initial env k rem2 := by
  intro rem
  induction rem with
  | zero => intro rem2 a hbudget hak h1; omega
  | succ r ih =>
      intro rem2 a hbudget hak h1
      rcases Nat.eq_or_lt_of_le hak with heq | hlt
      · subst heq
        have : rem2 = r + 1 := by omega
        subst this
        rfl
      · have hc := hcont a hlt
        have hr : r ≠ 0 := by omega
        cases he : env a with
        | throws =>
            simp only [autoStartGo, he, if_neg hr]
            exact ih rem2 (a + 1) (by omega) (by omega) h1
        | reads row p s =>
            cases row with
            | none =>
                simp only [autoStartGo, he]
                exact ih rem2 (a + 1) (by omega) (by omega) h1
            | some r0 =>
                have hg : (r0.enabled && initial) = false := by
                  rw [he] at hc
                  have h2 : (!(r0.enabled && initial)) = true := hc
                  cases hb : (r0.enabled && initial) with
                  | false => rfl
                  | true => rw [hb] at h2; exact absurd h2 (by decide)
                simp only [autoStartGo, he, hg, Bool.false_eq_true, if_false]
                exact ih rem2 (a + 1) (by omega) (by omega) h1

/-- C5: a probe failure is terminal for the election.  If the winning
worker's run is frozen enabled, every attempt before `k` merely continued,
and at attempt `k` the config row is present and enabled but the throwaway
probe bind raises (port already bound), then the whole election ends right
there with probeFailed: the listener is not started, the file lock is
released, and no later retry iteration matters — any environment agreeing
with this one up to attempt `k` produces the same outcome. -/
theorem probe_failure_terminal (env : Nat → AttemptEnv) (k : Nat)
    (row : PluginConfigRow) (sOk : Bool) (freeze : Option PluginConfigRow)
    (hfreeze : initialAutoStart freeze = true)
    (hk : k < maxRetries)
    (hrow : row.enabled = true)
    (henvk : env k = AttemptEnv.reads (some row) true sOk)
    (hcont : ∀ j, j < k → attemptContinues true (env j) = true) :
    delayedAutoStart true none freeze env
      = AutoStartResult.loop (LoopResult.probeFailed k (effPort row))
  ∧ lockKept (delayedAutoStart true none freeze env) = false
  ∧ autoStartStarted (delayedAutoStart true none freeze env) = false
  ∧ ∀ env2 : Nat → AttemptEnv, (∀ j, j ≤ k → env2 j = env j) →
      delayedAutoStart true none freeze env2
        = AutoStartResult.loop (LoopResult.probeFailed k (effPort row)) := by
  have main : ∀ env2 : Nat → AttemptEnv, (∀ j, j ≤ k → env2 j = env j) →
      delayedAutoStart true none freeze env2
        = AutoStartResult.loop (LoopResult.probeFailed k (effPort row)) := by
    intro env2 hagree
    have hloop : autoStartLoop true env2 = LoopResult.probeFailed k (effPort row) := by
      rw [autoStartLoop]
      rw [autoStartGo_skip true env2 k
        (fun j hj => by rw [hagree j (Nat.le_of_lt hj)]; exact hcont j hj)
        maxRetries (maxRetries - k) 0 (by omega) (by omega) (by omega)]
      have hrem : maxRetries - k = (maxRetries - k - 1) + 1 := by omega
      rw [hrem]
      simp only [autoStartGo, hagree k le_rfl, henvk, hrow, Bool.true_and,
        if_pos rfl, if_true]
    rw [delayedAutoStart]
    simp [hfreeze, hloop]
  refine ⟨main env (fun _ _ => rfl), ?_, ?_, main⟩
  · rw [main env (fun _ _ => rfl)]; rfl
  · rw [main env (fun _ _ => rfl)]; rfl

/-- Witness for C5: probe failure on the second attempt (the first threw). -/
theorem probe_failure_terminal_witness :
    delayedAutoStart true none (some ⟨true, some ⟨some true, none, none⟩⟩)
      (fun j => if j = 0 then AttemptEnv.throws
        else AttemptEnv.reads (some ⟨true, none⟩) true true)
      = AutoStartResult.loop (LoopResult.probeFailed 1 defaultPort) :=
  (probe_failure_terminal
    (fun j => if j = 0 then AttemptEnv.throws
      else AttemptEnv.reads (some ⟨true, none⟩) true true)
    1 ⟨true, none⟩ true (some ⟨true, some ⟨some true, none, none⟩⟩)
    rfl (by decide) rfl rfl
    (fun j hj => by
      interval_cases j
      rfl)).1

/-- The retry loop never consults the auto_start value of the rows it
re-reads — only the frozen decision and the row's enabled flag — so two
environments agreeing except on auto_start drive it to the same result. -/
lemma autoStartGo_agrees (initial : Bool) (env1 env2 : Nat → AttemptEnv)
    (h : ∀ j, envAgreesExceptAutoStart (env1 j) (env2 j) = true) :
    ∀ rem a, autoStartGo initial env1 a rem = autoStartGo initial env2 a rem := by
  intro rem
  induction rem with
  | zero => intro a; rfl
  | succ r ih =>
      intro a
      have ha := h a
      cases he1 : env1 a with
      | throws =>
          cases he2 : env2 a with
          | throws =>
              by_cases hr : r = 0
              · simp only [autoStartGo, he1, he2, hr, if_pos rfl]
              · simp only [autoStartGo, he1, he2, if_neg hr]
                exact ih (a + 1)
          | reads c2 p2 s2 =>
              rw [he1, he2] at ha
              exact absurd ha (by simp [envAgreesExceptAutoStart])
      | reads c1 p1 s1 =>
          cases he2 : env2 a with
          | throws =>
              rw [he1, he2] at ha
              exact absurd ha (by simp [envAgreesExceptAutoStart])
          | reads c2 p2 s2 =>
              rw [he1, he2] at ha
              simp only [envAgreesExceptAutoStart, Bool.and_eq_true,
                beq_iff_eq] at ha
              obtain ⟨⟨hrow, hp⟩, hs⟩ := ha
              subst hp
              subst hs
              cases c1 with
              | none =>
                  cases c2 with
                  | none =>
                      simp only [autoStartGo, he1, he2]
                      exact ih (a + 1)
                  | some r2 =>
                      exact absurd hrow (by simp [rowAgreesExceptAutoStart])
              | some r1 =>
                  cases c2 with
                  | none =>
                      exact absurd hrow (by simp [rowAgreesExceptAutoStart])
                  | some r2 =>
                      simp only [rowAgreesExceptAutoStart, Bool.and_eq_true,
                        beq_iff_eq] at hrow
                      obtain ⟨⟨hen, hport⟩, hhost⟩ := hrow
                      simp only [autoStartGo, he1, he2, hen, hport, hhost]
                      by_cases hg : (r2.enabled && initial) = true
                      · simp [hg]
                      · simp only [if_neg hg]
                        exact ih (a + 1)

/-- C6: the auto-start decision of an in-flight election is frozen at the
single configuration read taken after lock acquisition.  Two runs of the
election whose later configuration reads differ only in the auto_start
value have identical outcomes; and when the frozen decision is false, no
run starts the listener whatever auto_start is toggled to afterwards. -/
theorem config_freeze (lockFree : Bool) (runningFlag : Option String)
    (freeze : Option PluginConfigRow) (env1 env2 : Nat → AttemptEnv)
    (h : ∀ j, envAgreesExceptAutoStart (env1 j) (env2 j) = true) :
    delayedAutoStart lockFree runningFlag freeze env1
      = delayedAutoStart lockFree runningFlag freeze env2
  ∧ (initialAutoStart freeze = false →
      autoStartStarted (delayedAutoStart lockFree runningFlag freeze env1)
        = false) := by
  constructor
  · have hloop : autoStartLoop (initialAutoStart freeze) env1
        = autoStartLoop (initialAutoStart freeze) env2 :=
      autoStartGo_agrees (initialAutoStart freeze) env1 env2 h maxRetries 0
    rw [delayedAutoStart, delayedAutoStart, hloop]
  · intro hfr
    rw [delayedAutoStart, hfr]
    cases lockFree with
    | false => rfl
    | true =>
        by_cases hflag : runningFlag = some "1"
        · simp [hflag, autoStartStarted]
        · simp [hflag, autoStartStarted]

/-- Witness for C6: two elections whose second configuration read disagrees
on auto_start (toggled off at runtime) end identically. -/
theorem config_freeze_witness :
    delayedAutoStart true none (some ⟨true, some ⟨some true, none, none⟩⟩)
      (fun _ => AttemptEnv.reads (some ⟨true, some ⟨some true, none, none⟩⟩)
        false true)
      = delayedAutoStart true none (some ⟨true, some ⟨some true, none, none⟩⟩)
      (fun _ => AttemptEnv.reads (some ⟨true, some ⟨some false, none, none⟩⟩)
        false true) :=
  (config_freeze true none (some ⟨true, some ⟨some true, none, none⟩⟩)
    (fun _ => AttemptEnv.reads (some ⟨true, some ⟨some true, none, none⟩⟩)
      false true)
    (fun _ => AttemptEnv.reads (some ⟨true, some ⟨some false, none, none⟩⟩)
      false true)
    (fun _ => rfl)).1

/-- If the stop flag holds from tick τ on and the monitor polls from tick
`a ≤ τ` with enough fuel to reach τ, it observes the flag at some tick
`t0 ≤ τ` and ends stopped with all coordination keys deleted. -/
lemma monitorLoop_observes (flagAt : Nat → Option String) (τ : Nat)
    (hp : ∀ t, τ ≤ t → flagAt t = some "1") :
    ∀ fuel a c, a ≤ τ → τ < a + fuel →
      ∃ t0, monitorLoop flagAt fuel a c = ⟨some t0, false, shutdownCleanup c⟩
        ∧ t0 ≤ τ := by
  intro fuel
  induction fuel with
  | zero => intro a c ha hfa; omega
  | succ f ih =>
      intro a c ha hfa
      by_cases hflag : flagAt a = some "1"
      · exact ⟨a, by rw [monitorLoop, if_pos hflag], ha⟩
      · have haτ : a < τ := by
          rcases Nat.eq_or_lt_of_le ha with heq | hlt
          · exact absurd (hp a (Nat.le_of_eq heq.symm)) hflag
          · exact hlt
        have hstep : monitorLoop flagAt (f + 1) a c
            = monitorLoop flagAt f (a + 1) c := by
          rw [monitorLoop, if_neg hflag]
        rw [hstep]
        exact ih (a + 1) c (by omega) (by omega)

/-- C7: a RUNNING listener whose monitor loop polls the cache every second
observes `stop_requested = "1"` within one poll interval of the flag being
set (at some tick t0 ≤ τ + 1 when the flag is set at tick τ and kept) and
transitions to STOPPED; afterwards the `server_running` key is absent (the
shutdown cleanup deletes all four coordination keys). -/
theorem stop_observed_within_poll_interval (flagAt : Nat → Option String)
    (τ fuel : Nat) (c : Cache)
    (hp : ∀ t, τ ≤ t → flagAt t = some "1") (hfuel : τ < fuel) :
    ∃ t0, t0 ≤ τ + 1
      ∧ monitorLoop flagAt fuel 0 c = ⟨some t0, false, shutdownCleanup c⟩
      ∧ (monitorLoop flagAt fuel 0 c).running = false
      ∧ (monitorLoop flagAt fuel 0 c).cache.server_running = none := by
  obtain ⟨t0, heq, ht0⟩ :=
    monitorLoop_observes flagAt τ hp fuel 0 c (Nat.zero_le τ) (by omega)
  exact ⟨t0, by omega, heq, by rw [heq], by rw [heq]; rfl⟩

/-- Witness for C7: flag set from tick 0, observed at tick 0, keys gone. -/
theorem stop_observed_within_poll_interval_witness :
    ∃ t0, t0 ≤ 0 + 1
      ∧ monitorLoop (fun _ => some "1") 2 0
          ⟨some "1", some "0.0.0.0", some "9192", some "1"⟩
        = ⟨some t0, false,
           shutdownCleanup ⟨some "1", some "0.0.0.0", some "9192", some "1"⟩⟩
      ∧ (monitorLoop (fun _ => some "1") 2 0
          ⟨some "1", some "0.0.0.0", some "9192", some "1"⟩).running = false
      ∧ (monitorLoop (fun _ => some "1") 2 0
          ⟨some "1", some "0.0.0.0", some "9192", some "1"⟩).cache.server_running
        = none :=
  stop_observed_within_poll_interval (fun _ => some "1") 0 2
    ⟨some "1", some "0.0.0.0", some "9192", some "1"⟩
    (fun _ _ => rfl) (by decide)

/-- The cross-worker wait loop finds no poll at which the flag is gone iff
the flag reads "1" at every poll in its window. -/
lemma stopPoll_none_iff (flagAt : Nat → Option String) :
    ∀ fuel a, stopPoll flagAt fuel a = none
      ↔ ∀ i, a ≤ i → i < a + fuel → flagAt i = some "1" := by
  intro fuel
  induction fuel with
  | zero =>
      intro a
      constructor
      · intro _ i hi hi2; omega
      · intro _; rfl
  | succ f ih =>
      intro a
      by_cases hflag : flagAt a = some "1"
      · have hstep : stopPoll flagAt (f + 1) a = stopPoll flagAt f (a + 1) := by
          rw [stopPoll, if_neg (by simp [hflag])]
        rw [hstep, ih (a + 1)]
        constructor
        · intro hall i hi hi2
          rcases Nat.eq_or_lt_of_le hi with heq | hlt
          · rw [← heq]; exact hflag
          · exact hall i hlt (by omega)
        · intro hall i hi hi2
          exact hall i (by omega) (by omega)
      · have hstep : stopPoll flagAt (f + 1) a = some a := by
          rw [stopPoll, if_pos hflag]
        rw [hstep]
        constructor
        · intro hc; exact absurd hc (by simp)
        · intro hall
          exact absurd (hall a le_rfl (by omega)) hflag

/-- C8: the stop_server action in a worker with no local listener and a
reachable cache sets `stop_requested = "1"` and never deletes
`server_running` itself; it reports success when the running flag
disappears at some poll within the 50-poll (5 second) window and a
warning — not an error — when the flag is still "1" at every poll. -/
theorem stop_remote_signal_and_wait (flagAt : Nat → Option String) :
    ((∃ i, i < 50 ∧ flagAt i ≠ some "1") →
        (stopServerAction false true flagAt).1
          = ⟨"success", "Metrics server stopped successfully"⟩)
  ∧ ((∀ i, i < 50 → flagAt i = some "1") →
        (stopServerAction false true flagAt).1
          = ⟨"warning",
             "Stop signal sent, but server did not confirm shutdown within 5 seconds"⟩)
  ∧ (stopServerAction false true flagAt).2 = ⟨true, false⟩ := by
  refine ⟨?_, ?_, ?_⟩
  · intro ⟨i, hi, hflag⟩
    have hpoll : stopPoll flagAt 50 0 ≠ none := by
      rw [Ne, stopPoll_none_iff flagAt 50 0]
      intro hall
      exact hflag (hall i (Nat.zero_le i) (by omega))
    rw [stopServerAction]
    cases hp : stopPoll flagAt 50 0 with
    | none => exact absurd hp hpoll
    | some j => simp [hp]
  · intro hall
    have hpoll : stopPoll flagAt 50 0 = none := by
      rw [stopPoll_none_iff flagAt 50 0]
      intro i _ hi2
      exact hall i (by omega)
    rw [stopServerAction]
    simp [hpoll]
  · rw [stopServerAction]
    cases hp : stopPoll flagAt 50 0 with
    | none => simp [hp]
    | some j => simp [hp]

/-- Witness for C8: the flag is gone at the first poll, so the action
succeeds, having set stop_requested and deleted nothing. -/
theorem stop_remote_signal_and_wait_witness :
    (stopServerAction false true (fun _ => none)).1
      = ⟨"success", "Metrics server stopped successfully"⟩
  ∧ (stopServerAction false true (fun _ => none)).2 = ⟨true, false⟩ :=
  ⟨(stop_remote_signal_and_wait (fun _ => none)).1
      ⟨0, by decide, by decide⟩,
   (stop_remote_signal_and_wait (fun _ => none)).2.2⟩

end DispatcharrExporter
